import Mathlib

/-!
# textlocal: a shallow embedding of `textlocal.go`

The Go package is a small client for an SMS gateway.  This file embeds

* the values an `interface{}` can hold after `encoding/json` decoding or when a
  caller builds a `map[string]interface{}` by hand (`GoValue`),
* the error table `getErrorFromResponse`,
* the constructors `New` / `NewWithCustomHttpClient` and `GetBaseUrl`,
* the two calls `GetCredits` and `SendSMS`, with the HTTP round trip supplied
  by the `http.Client` held in the connection,

and proves properties of them.  A Go run-time panic (a failed single-value type
assertion, a nil dereference) is an explicit result, `Outcome.panicked`.
-/

set_option autoImplicit false

namespace Textlocal

/-! ## Results of running Go code -/

/-- The result of running a Go function body: it returns a value or it panics. -/
inductive Outcome (α : Type) where
  | returned (a : α)
  | panicked (msg : String)
deriving DecidableEq, Repr

/-- The error values of the package (`errors.New` at package level, each one a
distinct pointer) and, as `external`, any error made outside it (transport,
body reader, JSON decoder).  A Go `error` result is an `Option GoError`, `none`
being `nil`. -/
inductive GoError where
  | ErrEmptyBaseUrl
  | ErrNoApiKeyProvided
  | ErrUnknown
  | ErrCommandNotValid
  | ErrInvalidApiKey
  | external (msg : String)
deriving DecidableEq, Repr

/-- The text of an error, `err.Error()`. -/
def GoError.Error : GoError → String
  | .ErrEmptyBaseUrl => "You must set a base url. Use textlocal.DefaultBaseUrl to use default."
  | .ErrNoApiKeyProvided => "You must provide an API key."
  | .ErrUnknown => "API error, unknown."
  | .ErrCommandNotValid => "API error, unknown command."
  | .ErrInvalidApiKey => "API error, invalid api key provided."
  | .external msg => msg

/-- The default TextLocal API gateway. -/
def DefaultBaseUrl : String := "https://api.txtlocal.com"

/-! ## Numbers -/

/-- A finite `float64`, held exactly as the dyadic rational `mant * 2 ^ exp`
(every finite IEEE-754 binary64 value has this form). -/
structure Float64 where
  mant : Int
  exp : Int
deriving DecidableEq, Repr

/-- The rational number a `Float64` stands for. -/
def Float64.toRat (f : Float64) : ℚ := (f.mant : ℚ) * (2 : ℚ) ^ f.exp

/-- The fraction of a `Float64` discarded (rounding toward zero), as an
unbounded integer. -/
def Float64.truncate (f : Float64) : Int :=
  if 0 ≤ f.exp then f.mant * 2 ^ f.exp.toNat else Int.tdiv f.mant (2 ^ (-f.exp).toNat)

/-- The least value of Go's `int` on a 64-bit target. -/
def minInt : Int := -9223372036854775808

/-- The greatest value of Go's `int` on a 64-bit target. -/
def maxInt : Int := 9223372036854775807

/-- The Go conversion `int(f)` of a `float64` on a 64-bit target: the fraction
is discarded; when the truncated value does not fit in `int` the language
leaves the result to the implementation, and the amd64 conversion instruction
gives the least `int`. -/
def intFromFloat64 (f : Float64) : Int :=
  if minInt ≤ f.truncate ∧ f.truncate ≤ maxInt then f.truncate else minInt

/-! ## Dynamic values -/

/-- The dynamic values an `interface{}` holds in this program.  `slice` is a
`[]interface{}`, `map` a `map[string]interface{}` (an association list, the
first binding of a key being the one in force), `mapSlice` a
`[]map[string]interface{}`; `other` stands for a value of any further type. -/
inductive GoValue where
  | nil
  | bool (b : Bool)
  | int (n : Int)
  | float64 (f : Float64)
  | string (s : String)
  | slice (xs : List GoValue)
  | map (m : List (String × GoValue))
  | mapSlice (ms : List (List (String × GoValue)))
  | other (typeName : String)

/-- A `map[string]interface{}`. -/
abbrev GoMap := List (String × GoValue)

/-- The index expression `m[k]`: the value bound to `k`, or the zero value of
`interface{}` (nil) when the key is absent; a nil map reads as empty. -/
def GoMap.index (m : GoMap) (k : String) : GoValue :=
  match m.lookup k with
  | some v => v
  | none => GoValue.nil

/-- The assignment `m[k] = v`. -/
def GoMap.set : GoMap → String → GoValue → GoMap
  | [], k, v => [(k, v)]
  | (k', v') :: rest, k, v => if k' = k then (k, v) :: rest else (k', v') :: GoMap.set rest k v

/-- The checked assertion `v.([]map[string]interface{})`, `none` for `ok == false`. -/
def GoValue.assertMapSlice : GoValue → Option (List GoMap)
  | .mapSlice ms => some ms
  | _ => none

/-- The checked assertion `v.(map[string]interface{})`, `none` for `ok == false`. -/
def GoValue.assertMap : GoValue → Option GoMap
  | .map m => some m
  | _ => none

/-- The unchecked assertion `v.(int)`: it panics on any other dynamic type. -/
def GoValue.assertInt : GoValue → Outcome Int
  | .int n => .returned n
  | _ => .panicked "interface conversion: interface \x7b\x7d is not int"

/-- The unchecked assertion `v.(string)`: it panics on any other dynamic type. -/
def GoValue.assertString : GoValue → Outcome String
  | .string s => .returned s
  | _ => .panicked "interface conversion: interface \x7b\x7d is not string"

/-- The unchecked assertion `v.(float64)`: it panics on any other dynamic type. -/
def GoValue.assertFloat64 : GoValue → Outcome Float64
  | .float64 f => .returned f
  | _ => .panicked "interface conversion: interface \x7b\x7d is not float64"

/-! ## The error table -/

/-- Error code 1 of the `iota` block. -/
def noCommandSpecifiedErrorCode : Int := 1

/-- Error code 2 of the `iota` block. -/
def unrecognisedCommandErrorCode : Int := 2

/-- Error code 3 of the `iota` block. -/
def invalidLoginDetailsErrorCode : Int := 3

/-- The function `getErrorFromResponse` of `textlocal.go`. -/
def getErrorFromResponse (b : GoMap) : Outcome GoError :=
  match (b.index "error").assertMapSlice with
  | some e =>
    if e.length > 0 then
      match e.head? with
      | some te =>
        match (te.index "code").assertInt with
        | .panicked msg => .panicked msg
        | .returned code =>
          if code = noCommandSpecifiedErrorCode then .returned GoError.ErrCommandNotValid
          else if code = unrecognisedCommandErrorCode then .returned GoError.ErrCommandNotValid
          else if code = invalidLoginDetailsErrorCode then .returned GoError.ErrInvalidApiKey
          else .returned GoError.ErrUnknown
      | none => .returned GoError.ErrUnknown
    else .returned GoError.ErrUnknown
  | none => .returned GoError.ErrUnknown

/-! ## JSON and its decoding into `interface{}` -/

/-- A JSON text that `encoding/json` accepts, as a tree.  A number carries the
`float64` the decoder stores for it. -/
inductive Json where
  | null
  | bool (b : Bool)
  | number (f : Float64)
  | string (s : String)
  | array (xs : List Json)
  | object (kvs : List (String × Json))

mutual
/-- The value `json.Unmarshal` stores in an `interface{}`: `nil`, `bool`,
`float64`, `string`, `[]interface{}` or `map[string]interface{}`. -/
def Json.decode : Json → GoValue
  | .null => GoValue.nil
  | .bool b => GoValue.bool b
  | .number f => GoValue.float64 f
  | .string s => GoValue.string s
  | .array xs => GoValue.slice (Json.decodeList xs)
  | .object kvs => GoValue.map (Json.decodeFields [] kvs)
/-- The elements of a JSON array decoded in order. -/
def Json.decodeList : List Json → List GoValue
  | [] => []
  | x :: xs => Json.decode x :: Json.decodeList xs
/-- The members of a JSON object stored into a map in order, a repeated key
overwriting the earlier value. -/
def Json.decodeFields (m : GoMap) : List (String × Json) → GoMap
  | [] => m
  | (k, v) :: rest => Json.decodeFields (GoMap.set m k (Json.decode v)) rest
end

/-- The call `json.Unmarshal(content, &payload)` for a nil
`payload map[string]interface{}`.  `content` is `none` for bytes that are not
JSON the decoder accepts.  An object fills the map, `null` leaves it nil, any
other JSON value is a type error. -/
def jsonUnmarshal : Option Json → Except GoError GoMap
  | none => .error (GoError.external "json: invalid input")
  | some (.object kvs) => .ok (Json.decodeFields [] kvs)
  | some .null => .ok []
  | some _ =>
    .error (GoError.external "json: cannot unmarshal into Go value of type map[string]interface \x7b\x7d")

/-! ## The connection and the HTTP collaborators -/

/-- A request as `net/http` receives it: the method, the URL, the headers
added, and the form values whose encoding is the body. -/
structure Request where
  method : String
  url : String
  header : List (String × String)
  form : List (String × String)
deriving DecidableEq, Repr

/-- A response: what `ioutil.ReadAll(res.Body)` gives, an error or the content
(`none` for content that is not JSON the decoder accepts). -/
structure Response where
  Body : Except GoError (Option Json)

/-- The call `ioutil.ReadAll(res.Body)`. -/
def ReadAll (res : Response) : Except GoError (Option Json) := res.Body

/-- A non-nil `*http.Client`: `Do` sends a request and returns a response or
an error. -/
structure HttpClient where
  Do : Request → Except GoError Response

/-- The part of package `net/http` the program calls: the default client and
`http.NewRequest`, which gives `none` (a nil error) for a method and URL it
accepts. -/
structure HttpPackage where
  DefaultClient : HttpClient
  NewRequest : String → String → Option GoError

/-- Connection for connecting to TextLocal; a nil `client` is `none`. -/
structure Connection where
  baseUrl : String
  apiKey : String
  client : Option HttpClient

/-- The zero value `Connection{}`. -/
def Connection.zero : Connection := { baseUrl := "", apiKey := "", client := none }

/-- GetCreditsResponse contains how many credits remain. -/
structure GetCreditsResponse where
  RemainingSMS : Int
  RemainingMMS : Int
deriving DecidableEq, Repr

/-- The zero value `GetCreditsResponse{}`. -/
def GetCreditsResponse.zero : GetCreditsResponse := { RemainingSMS := 0, RemainingMMS := 0 }

/-! ## Strings -/

/-- The builtin `len` of a string: its length in bytes. -/
def len (s : String) : Nat := s.utf8ByteSize

/-- The characters of `s` with every trailing character found in `cutset`
removed. -/
def trimRightChars (cutset : List Char) : List Char → List Char
  | [] => []
  | c :: cs =>
    match trimRightChars cutset cs with
    | [] => if c ∈ cutset then [] else [c]
    | r :: rs => c :: r :: rs

/-- The function `strings.TrimRight(s, cutset)`: `s` without its trailing code
points contained in `cutset`. -/
def TrimRight (s cutset : String) : String := ⟨trimRightChars cutset.data s.data⟩

/-- The function `strings.Join(elems, sep)`. -/
def Join (elems : List String) (sep : String) : String := sep.intercalate elems

/-! ## Construction -/

/-- The function `NewWithCustomHttpClient`: the connection and the error. -/
def NewWithCustomHttpClient (baseUrl apiKey : String) (client : Option HttpClient) :
    Connection × Option GoError :=
  if len baseUrl = 0 then (Connection.zero, some GoError.ErrEmptyBaseUrl)
  else if len apiKey = 0 then (Connection.zero, some GoError.ErrNoApiKeyProvided)
  else ({ baseUrl := TrimRight baseUrl "/", apiKey := apiKey, client := client }, none)

/-- The function `New`, which passes `http.DefaultClient`. -/
def New (http : HttpPackage) (baseUrl apiKey : String) : Connection × Option GoError :=
  NewWithCustomHttpClient baseUrl apiKey (some http.DefaultClient)

/-- GetBaseUrl returns the base url used to construct the connection. -/
def Connection.GetBaseUrl (c : Connection) : String := c.baseUrl

/-! ## The two calls -/

/-- The method `(*http.Client).Get` of `net/http`: it builds the request with
`http.NewRequest`, returns its error if there is one, and otherwise calls `Do`,
which dereferences the client. -/
def clientGet (http : HttpPackage) (client : Option HttpClient) (url : String) :
    Outcome (Except GoError Response) :=
  match http.NewRequest "GET" url with
  | some e => .returned (.error e)
  | none =>
    match client with
    | none => .panicked "invalid memory address or nil pointer dereference"
    | some cl => .returned (cl.Do { method := "GET", url := url, header := [], form := [] })

/-- The method `GetCredits` from line 116 on, once `payload` is decoded. -/
def creditsFromPayload (payload : GoMap) : Outcome (GetCreditsResponse × Option GoError) :=
  match (payload.index "status").assertString with
  | .panicked msg => .panicked msg
  | .returned status =>
    if status ≠ "success" then
      match getErrorFromResponse payload with
      | .panicked msg => .panicked msg
      | .returned e => .returned (GetCreditsResponse.zero, some e)
    else
      match (payload.index "balance").assertMap with
      | some ba =>
        match (ba.index "sms").assertFloat64 with
        | .panicked msg => .panicked msg
        | .returned sms =>
          match (ba.index "mms").assertFloat64 with
          | .panicked msg => .panicked msg
          | .returned mms =>
            .returned
              ({ RemainingSMS := intFromFloat64 sms, RemainingMMS := intFromFloat64 mms }, none)
      | none => .returned ({ RemainingSMS := 0, RemainingMMS := 0 }, none)

/-- GetCredits will tell you amount of SMS and MMS credits available on the
account. -/
def Connection.GetCredits (http : HttpPackage) (c : Connection) :
    Outcome (GetCreditsResponse × Option GoError) :=
  match clientGet http c.client (c.baseUrl ++ "/balance?apiKey=" ++ c.apiKey) with
  | .panicked msg => .panicked msg
  | .returned (.error err) => .returned (GetCreditsResponse.zero, some err)
  | .returned (.ok res) =>
    match ReadAll res with
    | .error err => .returned (GetCreditsResponse.zero, some err)
    | .ok content =>
      match jsonUnmarshal content with
      | .error err => .returned (GetCreditsResponse.zero, some err)
      | .ok payload => creditsFromPayload payload

/-- The method `SendSMS` from line 162 on, once `payload` is decoded. -/
def sendFromPayload (payload : GoMap) : Outcome (Option GoError) :=
  match (payload.index "status").assertString with
  | .panicked msg => .panicked msg
  | .returned status =>
    if status ≠ "success" then
      match getErrorFromResponse payload with
      | .panicked msg => .panicked msg
      | .returned e => .returned (some e)
    else .returned none

/-- The request `SendSMS` builds: a POST of the four form values. -/
def sendRequest (c : Connection) (n : List String) (m f : String) : Request :=
  { method := "POST"
    url := c.baseUrl ++ "/send"
    header := [("Content-Type", "application/x-www-form-urlencoded")]
    form := [("apiKey", c.apiKey), ("numbers", Join n ","), ("message", m), ("sender", f)] }

/-- SendSMS will send a message to a list of numbers.  The error of
`http.NewRequest` is overwritten unread, so a rejected URL leaves `req` nil and
`req.Header.Add` dereferences it. -/
def Connection.SendSMS (http : HttpPackage) (c : Connection) (n : List String) (m f : String) :
    Outcome (Option GoError) :=
  match http.NewRequest "POST" (c.baseUrl ++ "/send") with
  | some _ => .panicked "invalid memory address or nil pointer dereference"
  | none =>
    match c.client with
    | none => .panicked "invalid memory address or nil pointer dereference"
    | some cl =>
      match cl.Do (sendRequest c n m f) with
      | .error err => .returned (some err)
      | .ok res =>
        match ReadAll res with
        | .error err => .returned (some err)
        | .ok content =>
          match jsonUnmarshal content with
          | .error err => .returned (some err)
          | .ok payload => sendFromPayload payload

/-! ## The specification's truncation -/

/-- A rational number truncated toward zero to an integer: the floor of a
non-negative number, the ceiling of a negative one. -/
def truncTowardZero (q : ℚ) : Int := if 0 ≤ q then ⌊q⌋ else ⌈q⌉

/-! ## Mock collaborators and inputs, as the tests register them -/

/-- A client that answers every request with the given content. -/
def mockClient (content : Option Json) : HttpClient :=
  { Do := fun _ => .ok { Body := .ok content } }

/-- A `net/http` whose default client is `mockClient content` and whose
`NewRequest` accepts every URL. -/
def mockHttp (content : Option Json) : HttpPackage :=
  { DefaultClient := mockClient content, NewRequest := fun _ _ => none }

/-- The connection of the tests, `New("https://api.txtlocal.com", "abc")`,
over a mocked default client. -/
def mockConnection (content : Option Json) : Connection :=
  (New (mockHttp content) "https://api.txtlocal.com" "abc").1

/-- The response map of the test for an invalid API key, with a further field
and a second entry. -/
def invalidLoginMap : GoMap :=
  [("status", GoValue.string "failure"),
   ("error", GoValue.mapSlice
      [[("code", GoValue.int 3), ("message", GoValue.string "Invalid login details")],
       [("code", GoValue.int 1)]])]

/-- The body
`{"status":"failure","error":[{"code":3,"message":"Invalid login details"}]}`. -/
def invalidLoginBody : Json :=
  .object [("status", .string "failure"),
    ("error", .array [.object [("code", .number ⟨3, 0⟩),
      ("message", .string "Invalid login details")]])]

/-- The body
`{"status":"failure","error":[{"code":1,"message":"No command specified."}]}`. -/
def noCommandBody : Json :=
  .object [("status", .string "failure"),
    ("error", .array [.object [("code", .number ⟨1, 0⟩),
      ("message", .string "No command specified.")]])]

/-- The body `{"status": "failure"}` of the test. -/
def failureBody : Json := .object [("status", .string "failure")]

/-- The body `{"balance": {"sms": 361.5, "mms": 0}, "status": "success"}` of
the test; 361.5 is `723 * 2 ^ (-1)`. -/
def creditsBody : Json :=
  .object [("balance", .object [("sms", .number ⟨723, -1⟩), ("mms", .number ⟨0, 0⟩)]),
    ("status", .string "success")]

/-- The body `{"status": "success", "balance": {"sms": 1e19, "mms": 0}}`;
`1e19` is the float64 `19073486328125 * 2 ^ 19`. -/
def hugeBalanceBody : Json :=
  .object [("status", .string "success"),
    ("balance", .object [("sms", .number ⟨19073486328125, 19⟩), ("mms", .number ⟨0, 0⟩)])]

/-- The body `{"status": 1}`. -/
def statusNumberBody : Json := .object [("status", .number ⟨1, 0⟩)]

/-- The body `{"status": "success", "balance": {"mms": 0}}`. -/
def missingSmsBody : Json :=
  .object [("status", .string "success"), ("balance", .object [("mms", .number ⟨0, 0⟩)])]

/-- The body `{"status": "success", "balance": {"sms": "12", "mms": 0}}`. -/
def stringSmsBody : Json :=
  .object [("status", .string "success"),
    ("balance", .object [("sms", .string "12"), ("mms", .number ⟨0, 0⟩)])]

/-- The body `{"status": "success"}`. -/
def successBody : Json := .object [("status", .string "success")]

/-- A client that answers GET requests with the given content and has no
responder for any other method, as the mock of the credits tests. -/
def getOnlyClient (content : Option Json) : HttpClient :=
  { Do := fun req =>
      if req.method = "GET" then .ok { Body := .ok content }
      else .error (GoError.external "no responder found") }

/-- A client that answers POST requests with the given content and has no
responder for any other method. -/
def postOnlyClient (content : Option Json) : HttpClient :=
  { Do := fun req =>
      if req.method = "POST" then .ok { Body := .ok content }
      else .error (GoError.external "no responder found") }

/-- A `net/http` with the given default client, whose `NewRequest` accepts
every URL. -/
def httpWith (client : HttpClient) : HttpPackage :=
  { DefaultClient := client, NewRequest := fun _ _ => none }

/-- The connection of the tests, `New("https://api.txtlocal.com", "abc")`,
over the given `net/http`. -/
def connectionOver (http : HttpPackage) : Connection :=
  (New http "https://api.txtlocal.com" "abc").1

/-! ## Lemmas on strings -/

/-- A string has byte length zero exactly when it is the empty string. -/
theorem len_eq_zero_iff (s : String) : len s = 0 ↔ s = "" := by
  cases s with
  | mk l =>
    cases l with
    | nil => exact ⟨fun _ => rfl, fun _ => rfl⟩
    | cons c cs =>
      constructor
      · intro h
        have hpos := Char.utf8Size_pos c
        simp only [len, String.utf8ByteSize, String.utf8ByteSize.go] at h
        omega
      · intro h
        have hd := congrArg String.data h
        simp at hd

/-- A list is its trimmed part followed by characters of the cutset only. -/
theorem trimRightChars_split (cutset : List Char) (l : List Char) :
    ∃ t, l = trimRightChars cutset l ++ t ∧ ∀ x ∈ t, x ∈ cutset := by
  induction l with
  | nil => exact ⟨[], rfl, by simp⟩
  | cons c cs ih =>
    obtain ⟨t, ht, hall⟩ := ih
    cases hr : trimRightChars cutset cs with
    | nil =>
      rw [hr] at ht
      by_cases hc : c ∈ cutset
      · refine ⟨c :: cs, by simp [trimRightChars, hr, hc], ?_⟩
        intro x hx
        rcases List.mem_cons.mp hx with h | h
        · exact h ▸ hc
        · exact hall x (by simpa [ht] using h)
      · refine ⟨cs, by simp [trimRightChars, hr, hc], ?_⟩
        intro x hx
        exact hall x (by simpa [ht] using hx)
    | cons r rs =>
      rw [hr] at ht
      refine ⟨t, ?_, hall⟩
      simp only [trimRightChars, hr]
      rw [List.cons_append, ← ht]

/-- The last character of a trimmed list is not in the cutset. -/
theorem trimRightChars_last (cutset : List Char) (l : List Char) (x : Char)
    (h : (trimRightChars cutset l).getLast? = some x) : x ∉ cutset := by
  induction l with
  | nil => simp [trimRightChars] at h
  | cons c cs ih =>
    cases hr : trimRightChars cutset cs with
    | nil =>
      by_cases hc : c ∈ cutset
      · simp [trimRightChars, hr, hc] at h
      · simp [trimRightChars, hr, hc] at h
        exact h ▸ hc
    | cons r rs =>
      rw [hr] at ih
      simp only [trimRightChars, hr] at h
      rw [List.getLast?_cons_cons] at h
      exact ih h

/-- Trimming keeps a list whose last character is not in the cutset. -/
theorem trimRightChars_unchanged (cutset : List Char) (l : List Char)
    (h : ∀ x, l.getLast? = some x → x ∉ cutset) : trimRightChars cutset l = l := by
  induction l with
  | nil => rfl
  | cons c cs ih =>
    cases cs with
    | nil =>
      have hc : c ∉ cutset := h c rfl
      simp [trimRightChars, hc]
    | cons d ds =>
      have ih' := ih (fun x hx => h x (by rw [List.getLast?_cons_cons]; exact hx))
      simp only [trimRightChars] at ih' ⊢
      rw [ih']

/-- A list all of whose members are `a` is a run of `a`. -/
theorem mem_singleton_replicate (a : Char) (t : List Char) (h : ∀ x ∈ t, x ∈ [a]) :
    t = List.replicate t.length a := by
  induction t with
  | nil => rfl
  | cons y ys ih =>
    have hy : y = a := by simpa using h y (List.mem_cons_self y ys)
    have hys := ih (fun x hx => h x (List.mem_cons_of_mem y hx))
    simp only [List.length_cons, List.replicate_succ]
    rw [hy, ← hys]

/-! ## Lemmas on numbers -/

/-- The integer computed by `Float64.truncate` is the value truncated toward zero. -/
theorem Float64.truncate_eq (f : Float64) : f.truncate = truncTowardZero f.toRat := by
  unfold Float64.truncate truncTowardZero Float64.toRat
  by_cases he : 0 ≤ f.exp
  · obtain ⟨n, hn⟩ := Int.eq_ofNat_of_zero_le he
    have hcast : (f.mant : ℚ) * (2 : ℚ) ^ f.exp = ((f.mant * 2 ^ n : Int) : ℚ) := by
      rw [hn]; push_cast; rw [zpow_natCast]
    rw [if_pos he, hcast, hn, Int.floor_intCast, Int.ceil_intCast, ite_self, Int.toNat_ofNat]
  · have hneg : f.exp < 0 := not_le.mp he
    obtain ⟨n, hn⟩ : ∃ n : Nat, (-f.exp).toNat = n := ⟨_, rfl⟩
    have hexp : f.exp = -(n : Int) := by omega
    have hq : (f.mant : ℚ) * (2 : ℚ) ^ f.exp = (f.mant : ℚ) / ((2 ^ n : Nat) : ℚ) := by
      rw [hexp, zpow_neg, zpow_natCast]; push_cast; rw [div_eq_mul_inv]
    rw [if_neg he, hq, hn]
    have hdpos : (0 : ℚ) < ((2 ^ n : Nat) : ℚ) := by positivity
    have hd : ((2 ^ n : Nat) : Int) = 2 ^ n := by push_cast; rfl
    by_cases hm : 0 ≤ f.mant
    · have hnn : (0 : ℚ) ≤ (f.mant : ℚ) / ((2 ^ n : Nat) : ℚ) := by positivity
      rw [if_pos hnn, Rat.floor_intCast_div_natCast, Int.tdiv_eq_ediv hm (by positivity), hd]
    · have hlt : f.mant < 0 := not_le.mp hm
      have hnn : ¬ (0 : ℚ) ≤ (f.mant : ℚ) / ((2 ^ n : Nat) : ℚ) := by
        rw [not_le]
        apply div_neg_of_neg_of_pos
        · exact_mod_cast hlt
        · exact hdpos
      rw [if_neg hnn]
      have h1 : (f.mant : ℚ) / ((2 ^ n : Nat) : ℚ) =
          -(((-f.mant : Int) : ℚ) / ((2 ^ n : Nat) : ℚ)) := by
        push_cast; ring
      rw [h1, Int.ceil_neg, Rat.floor_intCast_div_natCast]
      have h2 : Int.tdiv f.mant (2 ^ n) = -(Int.tdiv (-f.mant) (2 ^ n)) := by
        rw [Int.neg_tdiv, neg_neg]
      rw [h2, Int.tdiv_eq_ediv (by omega) (by positivity), hd]

/-- The conversion `int(f)` is the truncation toward zero when that fits in `int`. -/
theorem intFromFloat64_of_fits (f : Float64) (hlo : minInt ≤ truncTowardZero f.toRat)
    (hhi : truncTowardZero f.toRat ≤ maxInt) : intFromFloat64 f = truncTowardZero f.toRat := by
  rw [← Float64.truncate_eq] at hlo hhi ⊢
  simp [intFromFloat64, hlo, hhi]

/-! ## Lemmas on maps and decoding -/

/-- Reading a map after the assignment `m[k] = v`. -/
theorem GoMap.index_set (m : GoMap) (k : String) (v : GoValue) (k' : String) :
    (GoMap.set m k v).index k' = if k' = k then v else m.index k' := by
  induction m with
  | nil =>
    by_cases h : k' = k
    · simp [GoMap.set, GoMap.index, List.lookup, h]
    · have hb : (k' == k) = false := beq_eq_false_iff_ne.mpr h
      simp [GoMap.set, GoMap.index, List.lookup, h, hb]
  | cons p rest ih =>
    obtain ⟨a, w⟩ := p
    by_cases hak : a = k
    · by_cases h : k' = k
      · simp [GoMap.set, GoMap.index, List.lookup, hak, h]
      · have hb : (k' == k) = false := beq_eq_false_iff_ne.mpr h
        simp [GoMap.set, GoMap.index, List.lookup, hak, h, hb]
    · by_cases h' : k' = a
      · have hne : ¬ k' = k := fun e => hak (h' ▸ e)
        simp [GoMap.set, GoMap.index, List.lookup, hak, h', hne]
      · have hb : (k' == a) = false := beq_eq_false_iff_ne.mpr h'
        have ih' := ih
        simp only [GoMap.index] at ih' ⊢
        simp [GoMap.set, List.lookup, hak, hb, ih']

/-- No decoded JSON value is a `[]map[string]interface{}`. -/
theorem Json.decode_assertMapSlice (j : Json) : (Json.decode j).assertMapSlice = none := by
  cases j <;> simp [Json.decode, GoValue.assertMapSlice]

/-- A value read from a decoded object was in the map before or is a decoded JSON value. -/
theorem Json.decodeFields_index (kvs : List (String × Json)) :
    ∀ (m : GoMap) (k : String),
      (Json.decodeFields m kvs).index k = m.index k ∨
      ∃ j, (Json.decodeFields m kvs).index k = Json.decode j := by
  induction kvs with
  | nil => intro m k; exact Or.inl (by simp [Json.decodeFields])
  | cons p rest ih =>
    intro m k
    obtain ⟨k0, v0⟩ := p
    simp only [Json.decodeFields]
    rcases ih (GoMap.set m k0 (Json.decode v0)) k with h | h
    · rw [h, GoMap.index_set]
      by_cases hk : k = k0
      · exact Or.inr ⟨v0, by simp [hk]⟩
      · exact Or.inl (by simp [hk])
    · exact Or.inr h

/-- No field of a decoded payload is a `[]map[string]interface{}`. -/
theorem jsonUnmarshal_assertMapSlice (content : Option Json) (payload : GoMap)
    (hdec : jsonUnmarshal content = .ok payload) (k : String) :
    (payload.index k).assertMapSlice = none := by
  cases content with
  | none => simp [jsonUnmarshal] at hdec
  | some j =>
    cases j with
    | object kvs =>
      simp only [jsonUnmarshal, Except.ok.injEq] at hdec
      subst hdec
      rcases Json.decodeFields_index kvs [] k with h | ⟨j, h⟩
      · rw [h]; rfl
      · rw [h]; exact Json.decode_assertMapSlice j
    | null =>
      simp only [jsonUnmarshal, Except.ok.injEq] at hdec
      subst hdec
      rfl
    | bool b => simp [jsonUnmarshal] at hdec
    | number f => simp [jsonUnmarshal] at hdec
    | string s => simp [jsonUnmarshal] at hdec
    | array xs => simp [jsonUnmarshal] at hdec

/-- The error table gives `ErrUnknown` on every decoded payload. -/
theorem getErrorFromResponse_decoded (content : Option Json) (payload : GoMap)
    (hdec : jsonUnmarshal content = .ok payload) :
    getErrorFromResponse payload = .returned GoError.ErrUnknown := by
  simp [getErrorFromResponse, jsonUnmarshal_assertMapSlice content payload hdec "error"]

/-! ## Lemmas on the calls -/

/-- Once the balance request is answered and decoded, `GetCredits` is its tail on the payload. -/
theorem GetCredits_answered (http : HttpPackage) (c : Connection) (res : Response)
    (content : Option Json) (payload : GoMap)
    (hget : clientGet http c.client (c.baseUrl ++ "/balance?apiKey=" ++ c.apiKey) =
      .returned (.ok res))
    (hread : ReadAll res = .ok content) (hdec : jsonUnmarshal content = .ok payload) :
    c.GetCredits http = creditsFromPayload payload := by
  simp [Connection.GetCredits, hget, hread, hdec]

/-- Once the send request is answered and decoded, `SendSMS` is its tail on the payload. -/
theorem SendSMS_answered (http : HttpPackage) (c : Connection) (n : List String) (m f : String)
    (cl : HttpClient) (res : Response) (content : Option Json) (payload : GoMap)
    (hreq : http.NewRequest "POST" (c.baseUrl ++ "/send") = none) (hcl : c.client = some cl)
    (hdo : cl.Do (sendRequest c n m f) = .ok res)
    (hread : ReadAll res = .ok content) (hdec : jsonUnmarshal content = .ok payload) :
    c.SendSMS http n m f = sendFromPayload payload := by
  simp [Connection.SendSMS, hreq, hcl, hdo, hread, hdec]

/-! ## The error table -/

/-- C1: when the "error" field of the response map is a non-empty
`[]map[string]interface{}` whose first entry has an `int` "code",
`getErrorFromResponse` returns `ErrCommandNotValid` for the codes
`noCommandSpecifiedErrorCode` (1) and `unrecognisedCommandErrorCode` (2) and
`ErrInvalidApiKey` for `invalidLoginDetailsErrorCode` (3), whatever else the
entry, the list and the map hold. -/
theorem getErrorFromResponse_known_code (b te : GoMap) (rest : List GoMap) (code : Int)
    (herr : b.index "error" = GoValue.mapSlice (te :: rest))
    (hcode : te.index "code" = GoValue.int code) :
    (noCommandSpecifiedErrorCode = 1 ∧ unrecognisedCommandErrorCode = 2 ∧
      invalidLoginDetailsErrorCode = 3) ∧
    (code = 1 ∨ code = 2 → getErrorFromResponse b = .returned GoError.ErrCommandNotValid) ∧
    (code = 3 → getErrorFromResponse b = .returned GoError.ErrInvalidApiKey) := by
  refine ⟨⟨rfl, rfl, rfl⟩, ?_, ?_⟩
  · intro h
    rcases h with h | h <;>
      simp [getErrorFromResponse, herr, hcode, GoValue.assertMapSlice, GoValue.assertInt, h,
        noCommandSpecifiedErrorCode, unrecognisedCommandErrorCode]
  · intro h
    simp [getErrorFromResponse, herr, hcode, GoValue.assertMapSlice, GoValue.assertInt, h,
      noCommandSpecifiedErrorCode, unrecognisedCommandErrorCode, invalidLoginDetailsErrorCode]

/-- C1 at the response map of the test for an invalid API key. -/
theorem getErrorFromResponse_known_code_witness :
    getErrorFromResponse invalidLoginMap = .returned GoError.ErrInvalidApiKey :=
  (getErrorFromResponse_known_code invalidLoginMap
    [("code", GoValue.int 3), ("message", GoValue.string "Invalid login details")]
    [[("code", GoValue.int 1)]] 3 rfl rfl).2.2 rfl

/-- C2: `getErrorFromResponse` returns `ErrUnknown` when the map has no
"error" field, when the field is not a `[]map[string]interface{}`, when the
list is empty, and when the first entry has an `int` "code" other than 1, 2
and 3. -/
theorem getErrorFromResponse_unknown (b : GoMap)
    (h : b.lookup "error" = none ∨
      (b.index "error").assertMapSlice = none ∨
      b.index "error" = GoValue.mapSlice [] ∨
      ∃ (te : GoMap) (rest : List GoMap) (code : Int),
        b.index "error" = GoValue.mapSlice (te :: rest) ∧
        te.index "code" = GoValue.int code ∧ code ≠ 1 ∧ code ≠ 2 ∧ code ≠ 3) :
    getErrorFromResponse b = .returned GoError.ErrUnknown := by
  rcases h with h | h | h | ⟨te, rest, code, herr, hcode, h1, h2, h3⟩
  · simp [getErrorFromResponse, GoMap.index, h, GoValue.assertMapSlice]
  · simp [getErrorFromResponse, h]
  · simp [getErrorFromResponse, h, GoValue.assertMapSlice]
  · simp [getErrorFromResponse, herr, hcode, GoValue.assertMapSlice, GoValue.assertInt, h1, h2,
      h3, noCommandSpecifiedErrorCode, unrecognisedCommandErrorCode, invalidLoginDetailsErrorCode]

/-- C2 at a first entry whose code is negative. -/
theorem getErrorFromResponse_unknown_witness :
    getErrorFromResponse [("error", GoValue.mapSlice [[("code", GoValue.int (-1))]])] =
      .returned GoError.ErrUnknown :=
  getErrorFromResponse_unknown _
    (Or.inr (Or.inr (Or.inr ⟨[("code", GoValue.int (-1))], [], -1, rfl, rfl,
      by decide, by decide, by decide⟩)))

/-! ## Construction -/

/-- C4: `NewWithCustomHttpClient` and `New` return `ErrEmptyBaseUrl` when the
base URL is empty, `ErrNoApiKeyProvided` when the base URL is not empty and the
API key is, and a nil error otherwise; so the error is non-nil exactly when one
of the two strings is empty. -/
theorem NewWithCustomHttpClient_error (http : HttpPackage) (baseUrl apiKey : String)
    (client : Option HttpClient) :
    (NewWithCustomHttpClient baseUrl apiKey client).2 =
      (if baseUrl = "" then some GoError.ErrEmptyBaseUrl
       else if apiKey = "" then some GoError.ErrNoApiKeyProvided else none) ∧
    (New http baseUrl apiKey).2 = (NewWithCustomHttpClient baseUrl apiKey client).2 ∧
    ((NewWithCustomHttpClient baseUrl apiKey client).2 ≠ none ↔ baseUrl = "" ∨ apiKey = "") := by
  have key : ∀ cl : Option HttpClient, (NewWithCustomHttpClient baseUrl apiKey cl).2 =
      (if baseUrl = "" then some GoError.ErrEmptyBaseUrl
       else if apiKey = "" then some GoError.ErrNoApiKeyProvided else none) := by
    intro cl
    unfold NewWithCustomHttpClient
    by_cases hb : baseUrl = ""
    · simp [hb, (len_eq_zero_iff "").2 rfl]
    · by_cases hk : apiKey = ""
      · simp [hb, hk, (len_eq_zero_iff "").2 rfl, mt (len_eq_zero_iff baseUrl).1 hb]
      · simp [hb, hk, mt (len_eq_zero_iff baseUrl).1 hb, mt (len_eq_zero_iff apiKey).1 hk]
  refine ⟨key client, ?_, ?_⟩
  · rw [New, key, key]
  · rw [key]
    by_cases hb : baseUrl = ""
    · simp [hb]
    · by_cases hk : apiKey = "" <;> simp [hb, hk]

/-- C5: for a non-empty base URL `u` and a non-empty API key, construction
succeeds and `GetBaseUrl` is `u` without its trailing slashes: it does not end
in a slash, `u` is it followed by slashes only, and it is `u` itself when `u`
does not end in a slash.  `New` stores the same base URL. -/
theorem GetBaseUrl_trimmed (http : HttpPackage) (u apiKey : String) (client : Option HttpClient)
    (hu : u ≠ "") (hk : apiKey ≠ "") :
    (NewWithCustomHttpClient u apiKey client).2 = none ∧
    (NewWithCustomHttpClient u apiKey client).1.GetBaseUrl.data.getLast? ≠ some '/' ∧
    (∃ n : Nat, u.data =
      (NewWithCustomHttpClient u apiKey client).1.GetBaseUrl.data ++ List.replicate n '/') ∧
    (u.data.getLast? ≠ some '/' → (NewWithCustomHttpClient u apiKey client).1.GetBaseUrl = u) ∧
    (New http u apiKey).2 = none ∧
    (New http u apiKey).1.GetBaseUrl = (NewWithCustomHttpClient u apiKey client).1.GetBaseUrl := by
  have key : ∀ cl : Option HttpClient, NewWithCustomHttpClient u apiKey cl =
      ({ baseUrl := TrimRight u "/", apiKey := apiKey, client := cl }, none) := by
    intro cl
    simp [NewWithCustomHttpClient, mt (len_eq_zero_iff u).1 hu, mt (len_eq_zero_iff apiKey).1 hk]
  have hcut : ("/" : String).data = ['/'] := rfl
  rw [New, key, key]
  simp only [Connection.GetBaseUrl, TrimRight, hcut]
  refine ⟨trivial, ?_, ?_, ?_, trivial, trivial⟩
  · intro h
    exact trimRightChars_last ['/'] u.data '/' h (List.mem_singleton_self '/')
  · obtain ⟨t, ht, hall⟩ := trimRightChars_split ['/'] u.data
    exact ⟨t.length, by rw [← mem_singleton_replicate '/' t hall]; exact ht⟩
  · intro h
    have hsame : trimRightChars ['/'] u.data = u.data := by
      apply trimRightChars_unchanged
      intro x hx hmem
      rw [List.mem_singleton] at hmem
      exact h (hmem ▸ hx)
    rw [hsame]

/-- C5 at the base URL of the test: "http://localhost/" is stored as
"http://localhost". -/
theorem GetBaseUrl_trimmed_witness :
    (New (mockHttp none) "http://localhost/" "api-key").1.GetBaseUrl = "http://localhost" ∧
    (NewWithCustomHttpClient "http://localhost/" "api-key" none).1.GetBaseUrl.data.getLast? ≠
      some '/' :=
  ⟨by decide,
   (GetBaseUrl_trimmed (mockHttp none) "http://localhost/" "api-key" none
      (by decide) (by decide)).2.1⟩

/-- C6 at the base URL "/": construction returns a nil error and the stored
base URL is empty, while the API key is kept. -/
theorem NewWithCustomHttpClient_slash_only :
    (NewWithCustomHttpClient "/" "api-key" none).2 = none ∧
    (NewWithCustomHttpClient "/" "api-key" none).1.GetBaseUrl = "" ∧
    (NewWithCustomHttpClient "/" "api-key" none).1.apiKey = "api-key" ∧
    (New (mockHttp none) "///" "api-key").2 = none ∧
    (New (mockHttp none) "///" "api-key").1.GetBaseUrl = "" := by
  decide

/-! ## The calls on a decoded response -/

/-- C3 at the body
`{"status":"failure","error":[{"code":3,"message":"Invalid login details"}]}`
and at the same body with code 1: the decoder stores the "error" array as a
`[]interface{}`, the assertion to `[]map[string]interface{}` fails, and both
`GetCredits` and `SendSMS` return `ErrUnknown`. -/
theorem decoded_error_list_gives_ErrUnknown :
    (mockConnection (some invalidLoginBody)).GetCredits (mockHttp (some invalidLoginBody)) =
      .returned (GetCreditsResponse.zero, some GoError.ErrUnknown) ∧
    (mockConnection (some invalidLoginBody)).SendSMS (mockHttp (some invalidLoginBody))
      ["447123456789"] "hello" "sender" = .returned (some GoError.ErrUnknown) ∧
    (mockConnection (some noCommandBody)).GetCredits (mockHttp (some noCommandBody)) =
      .returned (GetCreditsResponse.zero, some GoError.ErrUnknown) ∧
    (mockConnection (some noCommandBody)).SendSMS (mockHttp (some noCommandBody))
      ["447123456789"] "hello" "sender" = .returned (some GoError.ErrUnknown) := by
  decide

/-- On every decoded response whose "status" is a string other than
"success", `GetCredits` returns `ErrUnknown` whenever its own request is
answered, and `SendSMS` returns `ErrUnknown` whenever its own request is
answered, whatever the "error" field of the response holds. -/
theorem decoded_failure_is_ErrUnknown (http : HttpPackage) (c : Connection) (n : List String)
    (m f : String) :
    (∀ (res : Response) (content : Option Json) (payload : GoMap) (status : String),
      clientGet http c.client (c.baseUrl ++ "/balance?apiKey=" ++ c.apiKey) =
        .returned (.ok res) →
      ReadAll res = .ok content → jsonUnmarshal content = .ok payload →
      payload.index "status" = GoValue.string status → status ≠ "success" →
      c.GetCredits http = .returned (GetCreditsResponse.zero, some GoError.ErrUnknown)) ∧
    (∀ (cl : HttpClient) (res : Response) (content : Option Json) (payload : GoMap)
        (status : String),
      http.NewRequest "POST" (c.baseUrl ++ "/send") = none → c.client = some cl →
      cl.Do (sendRequest c n m f) = .ok res →
      ReadAll res = .ok content → jsonUnmarshal content = .ok payload →
      payload.index "status" = GoValue.string status → status ≠ "success" →
      c.SendSMS http n m f = .returned (some GoError.ErrUnknown)) := by
  constructor
  · intro res content payload status hget hread hdec hstatus hne
    rw [GetCredits_answered http c res content payload hget hread hdec]
    have herr := getErrorFromResponse_decoded content payload hdec
    simp [creditsFromPayload, hstatus, GoValue.assertString, hne, herr]
  · intro cl res content payload status hreq hcl hdo hread hdec hstatus hne
    rw [SendSMS_answered http c n m f cl res content payload hreq hcl hdo hread hdec]
    have herr := getErrorFromResponse_decoded content payload hdec
    simp [sendFromPayload, hstatus, GoValue.assertString, hne, herr]

/-- The general statement at the body with error code 1, `GetCredits` over a
client that answers GET only and `SendSMS` over one that answers POST only. -/
theorem decoded_failure_is_ErrUnknown_witness :
    (connectionOver (httpWith (getOnlyClient (some noCommandBody)))).GetCredits
        (httpWith (getOnlyClient (some noCommandBody))) =
      .returned (GetCreditsResponse.zero, some GoError.ErrUnknown) ∧
    (connectionOver (httpWith (postOnlyClient (some noCommandBody)))).SendSMS
        (httpWith (postOnlyClient (some noCommandBody))) [] "" "" =
      .returned (some GoError.ErrUnknown) :=
  ⟨(decoded_failure_is_ErrUnknown (httpWith (getOnlyClient (some noCommandBody)))
      (connectionOver (httpWith (getOnlyClient (some noCommandBody)))) [] "" "").1
      { Body := .ok (some noCommandBody) } (some noCommandBody)
      (Json.decodeFields [] [("status", .string "failure"),
        ("error", .array [.object [("code", .number ⟨1, 0⟩),
          ("message", .string "No command specified.")]])])
      "failure" rfl rfl rfl rfl (by decide),
   (decoded_failure_is_ErrUnknown (httpWith (postOnlyClient (some noCommandBody)))
      (connectionOver (httpWith (postOnlyClient (some noCommandBody)))) [] "" "").2
      (postOnlyClient (some noCommandBody))
      { Body := .ok (some noCommandBody) } (some noCommandBody)
      (Json.decodeFields [] [("status", .string "failure"),
        ("error", .array [.object [("code", .number ⟨1, 0⟩),
          ("message", .string "No command specified.")]])])
      "failure" rfl rfl rfl rfl rfl rfl (by decide)⟩

/-- C7, amended: on a decoded response whose "status" is "success", when
"balance" is an object whose "sms" and "mms" are numbers `s` and `m` whose
truncations toward zero fit Go's 64-bit `int`, `GetCredits` returns those
truncations and a nil error; when the response has no "balance" it returns
0, 0 and a nil error. -/
theorem GetCredits_success (http : HttpPackage) (c : Connection) (res : Response)
    (content : Option Json) (payload : GoMap)
    (hget : clientGet http c.client (c.baseUrl ++ "/balance?apiKey=" ++ c.apiKey) =
      .returned (.ok res))
    (hread : ReadAll res = .ok content) (hdec : jsonUnmarshal content = .ok payload)
    (hstatus : payload.index "status" = GoValue.string "success") :
    (∀ (ba : GoMap) (s m : Float64),
      payload.index "balance" = GoValue.map ba →
      ba.index "sms" = GoValue.float64 s → ba.index "mms" = GoValue.float64 m →
      minInt ≤ truncTowardZero s.toRat → truncTowardZero s.toRat ≤ maxInt →
      minInt ≤ truncTowardZero m.toRat → truncTowardZero m.toRat ≤ maxInt →
      c.GetCredits http = .returned
        ({ RemainingSMS := truncTowardZero s.toRat, RemainingMMS := truncTowardZero m.toRat },
          none)) ∧
    (payload.lookup "balance" = none →
      c.GetCredits http = .returned ({ RemainingSMS := 0, RemainingMMS := 0 }, none)) := by
  rw [GetCredits_answered http c res content payload hget hread hdec]
  constructor
  · intro ba s m hba hs hm hslo hshi hmlo hmhi
    simp [creditsFromPayload, hstatus, GoValue.assertString, hba, GoValue.assertMap, hs, hm,
      GoValue.assertFloat64, intFromFloat64_of_fits s hslo hshi,
      intFromFloat64_of_fits m hmlo hmhi]
  · intro hnone
    have hbal : payload.index "balance" = GoValue.nil := by simp [GoMap.index, hnone]
    simp [creditsFromPayload, hstatus, GoValue.assertString, hbal, GoValue.assertMap]

/-- C7, amended, at the body of the test: sms 361.5 and mms 0 give 361 and 0. -/
theorem GetCredits_success_witness :
    (mockConnection (some creditsBody)).GetCredits (mockHttp (some creditsBody)) =
      .returned ({ RemainingSMS := truncTowardZero (Float64.toRat ⟨723, -1⟩),
                   RemainingMMS := truncTowardZero (Float64.toRat ⟨0, 0⟩) }, none) ∧
    truncTowardZero (Float64.toRat ⟨723, -1⟩) = 361 ∧
    truncTowardZero (Float64.toRat ⟨0, 0⟩) = 0 :=
  have h361 : truncTowardZero (Float64.toRat ⟨723, -1⟩) = 361 := by
    rw [← Float64.truncate_eq]; decide
  have h0 : truncTowardZero (Float64.toRat ⟨0, 0⟩) = 0 := by
    rw [← Float64.truncate_eq]; decide
  ⟨(GetCredits_success (mockHttp (some creditsBody)) (mockConnection (some creditsBody))
      { Body := .ok (some creditsBody) } (some creditsBody)
      (Json.decodeFields [] [("balance", .object [("sms", .number ⟨723, -1⟩),
        ("mms", .number ⟨0, 0⟩)]), ("status", .string "success")])
      rfl rfl rfl rfl).1
      [("sms", GoValue.float64 ⟨723, -1⟩), ("mms", GoValue.float64 ⟨0, 0⟩)] ⟨723, -1⟩ ⟨0, 0⟩
      rfl rfl rfl (by rw [h361]; decide) (by rw [h361]; decide)
      (by rw [h0]; decide) (by rw [h0]; decide),
    h361, h0⟩

/-- C7 as stated fails at the body
`{"status": "success", "balance": {"sms": 1e19, "mms": 0}}`: 1e19 truncated
toward zero is 10000000000000000000, which is no `int`, and `GetCredits`
returns the least `int` as RemainingSMS. -/
theorem GetCredits_huge_balance :
    truncTowardZero (Float64.toRat ⟨19073486328125, 19⟩) = 10000000000000000000 ∧
    (mockConnection (some hugeBalanceBody)).GetCredits (mockHttp (some hugeBalanceBody)) =
      .returned ({ RemainingSMS := -9223372036854775808, RemainingMMS := 0 }, none) ∧
    (mockConnection (some hugeBalanceBody)).GetCredits (mockHttp (some hugeBalanceBody)) ≠
      .returned ({ RemainingSMS := truncTowardZero (Float64.toRat ⟨19073486328125, 19⟩),
                   RemainingMMS := truncTowardZero (Float64.toRat ⟨0, 0⟩) }, none) := by
  have h19 : truncTowardZero (Float64.toRat ⟨19073486328125, 19⟩) = 10000000000000000000 := by
    rw [← Float64.truncate_eq]; decide
  have h0 : truncTowardZero (Float64.toRat ⟨0, 0⟩) = 0 := by
    rw [← Float64.truncate_eq]; decide
  refine ⟨h19, by decide, ?_⟩
  rw [h19, h0]
  decide

/-- C8: whenever the balance request is answered with a decoded response whose
"status" is a string other than "success", `GetCredits` returns the zero
`GetCreditsResponse` with a non-nil error, which is `ErrUnknown` when the
response has no "error" field; whenever the send request is answered with a
decoded response, `SendSMS` returns a non-nil error if the "status" is a string
other than "success" (`ErrUnknown` when the response has no "error" field), and
it returns nil exactly when the "status" is the string "success".  Each call
is stated under the answer to its own request only. -/
theorem failure_status_gives_error (http : HttpPackage) (c : Connection) (n : List String)
    (m f : String) :
    (∀ (res : Response) (content : Option Json) (payload : GoMap) (status : String),
      clientGet http c.client (c.baseUrl ++ "/balance?apiKey=" ++ c.apiKey) =
        .returned (.ok res) →
      ReadAll res = .ok content → jsonUnmarshal content = .ok payload →
      payload.index "status" = GoValue.string status → status ≠ "success" →
      ∃ e, c.GetCredits http = .returned (GetCreditsResponse.zero, some e) ∧
        (payload.lookup "error" = none → e = GoError.ErrUnknown)) ∧
    (∀ (cl : HttpClient) (res : Response) (content : Option Json) (payload : GoMap),
      http.NewRequest "POST" (c.baseUrl ++ "/send") = none → c.client = some cl →
      cl.Do (sendRequest c n m f) = .ok res →
      ReadAll res = .ok content → jsonUnmarshal content = .ok payload →
      (∀ status : String, payload.index "status" = GoValue.string status →
        status ≠ "success" →
        ∃ e, c.SendSMS http n m f = .returned (some e) ∧
          (payload.lookup "error" = none → e = GoError.ErrUnknown)) ∧
      (c.SendSMS http n m f = .returned none ↔
        payload.index "status" = GoValue.string "success")) := by
  constructor
  · intro res content payload status hget hread hdec hstatus hne
    rw [GetCredits_answered http c res content payload hget hread hdec]
    have herr := getErrorFromResponse_decoded content payload hdec
    exact ⟨GoError.ErrUnknown,
      by simp [creditsFromPayload, hstatus, GoValue.assertString, hne, herr], fun _ => rfl⟩
  · intro cl res content payload hreq hcl hdo hread hdec
    rw [SendSMS_answered http c n m f cl res content payload hreq hcl hdo hread hdec]
    have herr := getErrorFromResponse_decoded content payload hdec
    constructor
    · intro status hstatus hne
      exact ⟨GoError.ErrUnknown,
        by simp [sendFromPayload, hstatus, GoValue.assertString, hne, herr], fun _ => rfl⟩
    · cases hst : payload.index "status" with
      | string s =>
        by_cases hs : s = "success"
        · simp [sendFromPayload, hst, GoValue.assertString, hs]
        · simp [sendFromPayload, hst, GoValue.assertString, hs, herr]
      | _ => simp [sendFromPayload, hst, GoValue.assertString]

/-- C8 at the body `{"status": "failure"}` of the test: `GetCredits` over a
client that answers GET only (the mock the test registers), and `SendSMS`, with
its nil-exactly-on-success part, over a client that answers POST only, at that
body and at `{"status": "success"}`. -/
theorem failure_status_gives_error_witness :
    (∃ e, (connectionOver (httpWith (getOnlyClient (some failureBody)))).GetCredits
          (httpWith (getOnlyClient (some failureBody))) =
        .returned (GetCreditsResponse.zero, some e) ∧
      ((Json.decodeFields [] [("status", Json.string "failure")]).lookup "error" = none →
        e = GoError.ErrUnknown)) ∧
    (∃ e, (connectionOver (httpWith (postOnlyClient (some failureBody)))).SendSMS
          (httpWith (postOnlyClient (some failureBody))) ["447123456789"] "hello" "sender" =
        .returned (some e) ∧
      ((Json.decodeFields [] [("status", Json.string "failure")]).lookup "error" = none →
        e = GoError.ErrUnknown)) ∧
    ((connectionOver (httpWith (postOnlyClient (some failureBody)))).SendSMS
          (httpWith (postOnlyClient (some failureBody))) ["447123456789"] "hello" "sender" =
        .returned none ↔
      (Json.decodeFields [] [("status", Json.string "failure")]).index "status" =
        GoValue.string "success") ∧
    (connectionOver (httpWith (postOnlyClient (some successBody)))).SendSMS
        (httpWith (postOnlyClient (some successBody))) ["447123456789"] "hello" "sender" =
      .returned none :=
  ⟨(failure_status_gives_error (httpWith (getOnlyClient (some failureBody)))
      (connectionOver (httpWith (getOnlyClient (some failureBody))))
      ["447123456789"] "hello" "sender").1
      { Body := .ok (some failureBody) } (some failureBody)
      (Json.decodeFields [] [("status", Json.string "failure")]) "failure"
      rfl rfl rfl rfl (by decide),
   ((failure_status_gives_error (httpWith (postOnlyClient (some failureBody)))
      (connectionOver (httpWith (postOnlyClient (some failureBody))))
      ["447123456789"] "hello" "sender").2
      (postOnlyClient (some failureBody)) { Body := .ok (some failureBody) }
      (some failureBody) (Json.decodeFields [] [("status", Json.string "failure")])
      rfl rfl rfl rfl rfl).1 "failure" rfl (by decide),
   ((failure_status_gives_error (httpWith (postOnlyClient (some failureBody)))
      (connectionOver (httpWith (postOnlyClient (some failureBody))))
      ["447123456789"] "hello" "sender").2
      (postOnlyClient (some failureBody)) { Body := .ok (some failureBody) }
      (some failureBody) (Json.decodeFields [] [("status", Json.string "failure")])
      rfl rfl rfl rfl rfl).2,
   ((failure_status_gives_error (httpWith (postOnlyClient (some successBody)))
      (connectionOver (httpWith (postOnlyClient (some successBody))))
      ["447123456789"] "hello" "sender").2
      (postOnlyClient (some successBody)) { Body := .ok (some successBody) }
      (some successBody) (Json.decodeFields [] [("status", Json.string "success")])
      rfl rfl rfl rfl rfl).2.mpr rfl⟩

/-! ## Unchecked assertions -/

/-- C9 at a first entry with no "code", with a string "code", with a float64
"code" and with a nil "code": `getErrorFromResponse` panics in the assertion
`te["code"].(int)`. -/
theorem getErrorFromResponse_code_not_int :
    getErrorFromResponse
        [("error", GoValue.mapSlice [[("message", GoValue.string "No command specified.")]])] =
      .panicked "interface conversion: interface \x7b\x7d is not int" ∧
    getErrorFromResponse [("error", GoValue.mapSlice [[("code", GoValue.string "3")]])] =
      .panicked "interface conversion: interface \x7b\x7d is not int" ∧
    getErrorFromResponse [("error", GoValue.mapSlice [[("code", GoValue.float64 ⟨3, 0⟩)]])] =
      .panicked "interface conversion: interface \x7b\x7d is not int" ∧
    getErrorFromResponse [("error", GoValue.mapSlice [[("code", GoValue.nil)]])] =
      .panicked "interface conversion: interface \x7b\x7d is not int" := by
  decide

/-- C10 at the bodies `{"status": 1}`,
`{"status": "success", "balance": {"mms": 0}}` and
`{"status": "success", "balance": {"sms": "12", "mms": 0}}`: `GetCredits`
panics in the assertions `payload["status"].(string)` and
`ba["sms"].(float64)`. -/
theorem GetCredits_malformed_panics :
    (mockConnection (some statusNumberBody)).GetCredits (mockHttp (some statusNumberBody)) =
      .panicked "interface conversion: interface \x7b\x7d is not string" ∧
    (mockConnection (some missingSmsBody)).GetCredits (mockHttp (some missingSmsBody)) =
      .panicked "interface conversion: interface \x7b\x7d is not float64" ∧
    (mockConnection (some stringSmsBody)).GetCredits (mockHttp (some stringSmsBody)) =
      .panicked "interface conversion: interface \x7b\x7d is not float64" := by
  decide

end Textlocal
